import Mathlib

/-!
Verification development for the `amplify-ci-support` repository.

Part 1 embeds `src/credentials_rotators/npm/lambda_functions/rotation_handlers.py`:
the two Lambda handlers `rotate_access_keys` and `rotate_login_password`.
Side effects (printing, constructing the external rotator, invoking its
`rotate` method) are made explicit as a trace of actions, and Python
exceptions become an optional error value.

Part 2 embeds the two `CommonStack` CDK stack definitions under
`src/integ_test_resources/ios-sdk/...` and `src/integ_test_resources/ios/sdk/...`:
stack construction is a function returning the stack object together with the
list of cloud resources it provisions.
-/

namespace Npm

/-- A Lambda event: a flat mapping from string keys to string values,
modelled as an association list (Python `dict` restricted to the string
keys and values the handlers touch). -/
abbrev Event := List (String × String)

/-- Python dictionary subscript `event[key]`: `some v` when the key is
present with value `v`, `none` when the subscript would raise `KeyError`. -/
def getItem : Event → String → Option String
  | [], _ => none
  | (k, v) :: rest, key => if k = key then some v else getItem rest key

/-- Observable side effects of a rotation handler. -/
inductive Action where
  | printEvent (event : Event)
  | constructRotator (arn : String) (token : String) (step : String)
  | rotateCall (arn : String) (token : String) (step : String)
deriving DecidableEq

/-- Whether an action is an invocation of a rotator's `rotate` method. -/
def Action.isRotateCall : Action → Bool
  | Action.rotateCall _ _ _ => true
  | _ => false

/-- Whether an action is a construction of a `UserLoginPasswordRotator`. -/
def Action.isConstruct : Action → Bool
  | Action.constructRotator _ _ _ => true
  | _ => false

/-- Python exceptions escaping a rotation handler: a `KeyError` naming the
missing event key, or an exception raised inside the external
`UserLoginPasswordRotator.rotate` call, carried unmodified. -/
inductive Err where
  | keyError (key : String)
  | rotatorError (msg : String)
deriving DecidableEq

/-- The behaviour of the external `UserLoginPasswordRotator`: given the
constructor arguments `(arn, token, step)`, the outcome of calling
`rotate()` on the constructed rotator — `Except.ok ()` for a normal
return, `Except.error e` when `rotate` raises exception `e`.  The class
lives outside this repository, so it is a parameter of the handler. -/
abbrev RotateImpl := String → String → String → Except String Unit

/-- Embedding of `rotate_login_password(event, context)`.

Source body, in order: `print(event)`; `arn = event['SecretId']`;
`token = event['ClientRequestToken']`; `step = event['Step']`;
`user_login_password_rotator = UserLoginPasswordRotator(arn, token, step)`;
`user_login_password_rotator.rotate()`.

Returns the trace of observable actions together with the exception the
handler raises, if any.  Each subscript that misses raises `KeyError`
immediately, aborting the rest of the body. -/
def rotate_login_password {Context : Type} (rotateImpl : RotateImpl)
    (event : Event) (context : Context) : List Action × Option Err :=
  let printed : List Action := [Action.printEvent event]
  match getItem event "SecretId" with
  | none => (printed, some (Err.keyError "SecretId"))
  | some arn =>
    match getItem event "ClientRequestToken" with
    | none => (printed, some (Err.keyError "ClientRequestToken"))
    | some token =>
      match getItem event "Step" with
      | none => (printed, some (Err.keyError "Step"))
      | some step =>
        let constructed := printed ++ [Action.constructRotator arn token step]
        match rotateImpl arn token step with
        | Except.ok _ =>
            (constructed ++ [Action.rotateCall arn token step], none)
        | Except.error e =>
            (constructed ++ [Action.rotateCall arn token step],
             some (Err.rotatorError e))

/-- Embedding of `rotate_access_keys(event, context)`.  Every statement of
the source body is commented out (`# print(event)`, `# arn = ...`, ...),
so the function executes nothing and returns `None`: an empty action trace
and no exception. -/
def rotate_access_keys {Context : Type} (event : Event) (context : Context) :
    List Action × Option Err :=
  ([], none)

end Npm

namespace CdkIos

/-- An IAM principal, as used by the two stacks: only
`aws_iam.AccountPrincipal(account)` appears in the source. -/
inductive Principal where
  | accountPrincipal (account : String)
deriving DecidableEq

/-- An `aws_iam.Role` construct: its construct id within the stack, the
principal allowed to assume it, and the `role_arn` attribute assigned by
the cloud provider at deployment. -/
structure Role where
  construct_id : String
  assumed_by : Principal
  role_arn : String
deriving DecidableEq

/-- A resource or output provisioned by a stack constructor:
an IAM role, a `core.CfnOutput` stack-level output, or a
`string_parameter` entry in the shared parameter store. -/
inductive Resource where
  | iamRole (r : Role)
  | cfnOutput (construct_id : String) (value : String)
  | stringParameter (key : String) (value : String)
deriving DecidableEq

/-- Whether a provisioned resource is an IAM role. -/
def Resource.isRole : Resource → Bool
  | Resource.iamRole _ => true
  | _ => false

/-- The cloud side of `aws_iam.Role(...)`: the ARN the provider assigns to
the role, as a function of the deploying account and the construct id.
It is external to the source, so stack construction is parametric in it. -/
abbrev ArnAssign := String → String → String

/-- `aws_iam.Role(self, construct_id, assumed_by=AccountPrincipal(account))`:
the role object created inside a stack of the given account. -/
def mkRole (arnOf : ArnAssign) (account : String) (cid : String) : Role :=
  { construct_id := cid
    assumed_by := Principal.accountPrincipal account
    role_arn := arnOf account cid }

namespace IosSdk

/-- The `CommonStack` of
`src/integ_test_resources/ios-sdk/cdk_integration_tests_ios/cdk_integration_tests_ios/common_stack.py`:
its instance attributes after `__init__`.  `account` models the inherited
`self.account` of `core.Stack`; `_circleci_execution_role` is the private
attribute set by `__init__`. -/
structure CommonStack where
  account : String
  _circleci_execution_role : Role
deriving DecidableEq

/-- `CommonStack.__init__(self, scope, id, **kwargs)` of the ios-sdk
variant: creates one `aws_iam.Role` with construct id
`"circleci_execution_role"` assumable by `AccountPrincipal(self.account)`,
emits a `core.CfnOutput` named `"circleciexecutionrolearn"` carrying the
role's ARN, and stores the role in `self._circleci_execution_role`.
Returns the constructed stack and the list of provisioned resources. -/
def CommonStack.init (arnOf : ArnAssign) (scope : String) (id : String)
    (account : String) : CommonStack × List Resource :=
  let role := mkRole arnOf account "circleci_execution_role"
  ({ account := account, _circleci_execution_role := role },
   [Resource.iamRole role,
    Resource.cfnOutput "circleciexecutionrolearn" role.role_arn])

/-- The `circleci_execution_role` property getter:
`return self._circleci_execution_role`. -/
def CommonStack.circleci_execution_role (s : CommonStack) : Role :=
  s._circleci_execution_role

/-- The `circleci_execution_role` property setter:
`self._circleci_execution_role = value`. -/
def CommonStack.set_circleci_execution_role (s : CommonStack) (value : Role) :
    CommonStack :=
  { s with _circleci_execution_role := value }

end IosSdk

namespace IosSdkInteg

/-- The `CommonStack` of
`src/integ_test_resources/ios/sdk/integration/cdk/cdk_integration_tests_ios/common_stack.py`:
its instance attributes after `__init__`.  This variant additionally
stores `self.stackId = id`. -/
structure CommonStack where
  account : String
  stackId : String
  _circleci_execution_role : Role
deriving DecidableEq

/-- `CommonStack.__init__(self, scope, id, **kwargs)` of the
ios/sdk/integration variant: stores `self.stackId = id`, creates one
`aws_iam.Role` with construct id `"circleci_execution_role"` assumable by
`AccountPrincipal(self.account)`, publishes the role's ARN with
`string_parameter(self, "circleci_execution_role", ...)`, and stores the
role in `self._circleci_execution_role`. -/
def CommonStack.init (arnOf : ArnAssign) (scope : String) (id : String)
    (account : String) : CommonStack × List Resource :=
  let role := mkRole arnOf account "circleci_execution_role"
  ({ account := account, stackId := id, _circleci_execution_role := role },
   [Resource.iamRole role,
    Resource.stringParameter "circleci_execution_role" role.role_arn])

/-- The `circleci_execution_role` property getter:
`return self._circleci_execution_role`. -/
def CommonStack.circleci_execution_role (s : CommonStack) : Role :=
  s._circleci_execution_role

/-- The `circleci_execution_role` property setter:
`self._circleci_execution_role = value`. -/
def CommonStack.set_circleci_execution_role (s : CommonStack) (value : Role) :
    CommonStack :=
  { s with _circleci_execution_role := value }

end IosSdkInteg

end CdkIos

namespace Npm

/-- C1: for every event mapping containing the keys `SecretId`,
`ClientRequestToken` and `Step`, `rotate_login_password` extracts exactly
those three fields and passes them positionally, in the order
(SecretId value, ClientRequestToken value, Step value), to the
`UserLoginPasswordRotator` constructor, and then calls that rotator's
`rotate` operation exactly once. -/
theorem rotate_login_password_extracts_and_delegates {Context : Type}
    (rotateImpl : RotateImpl) (event : Event) (context : Context)
    (arn token step : String)
    (hArn : getItem event "SecretId" = some arn)
    (hTok : getItem event "ClientRequestToken" = some token)
    (hStep : getItem event "Step" = some step) :
    (rotate_login_password rotateImpl event context).1 =
      [Action.printEvent event,
       Action.constructRotator arn token step,
       Action.rotateCall arn token step] ∧
    ((rotate_login_password rotateImpl event context).1.countP
       Action.isRotateCall) = 1 := by
  simp only [rotate_login_password, hArn, hTok, hStep]
  cases hR : rotateImpl arn token step <;>
    simp [List.countP_cons, Action.isRotateCall, Action.isConstruct]

/-- C1 witness: the theorem applied to a concrete three-key event. -/
theorem rotate_login_password_extracts_and_delegates_witness :
    (rotate_login_password (fun _ _ _ => Except.ok ())
      [("SecretId", "arn:s"), ("ClientRequestToken", "tok"),
       ("Step", "createSecret")] ()).1 =
      [Action.printEvent
        [("SecretId", "arn:s"), ("ClientRequestToken", "tok"),
         ("Step", "createSecret")],
       Action.constructRotator "arn:s" "tok" "createSecret",
       Action.rotateCall "arn:s" "tok" "createSecret"] ∧
    ((rotate_login_password (fun _ _ _ => Except.ok ())
      [("SecretId", "arn:s"), ("ClientRequestToken", "tok"),
       ("Step", "createSecret")] ()).1.countP Action.isRotateCall) = 1 :=
  rotate_login_password_extracts_and_delegates _ _ ()
    "arn:s" "tok" "createSecret" (by decide) (by decide) (by decide)

/-- C2: for every event mapping missing at least one of the keys
`SecretId`, `ClientRequestToken` or `Step`, `rotate_login_password` fails
with a `KeyError` naming a missing key, and its trace is only the initial
`print(event)`: no rotator is constructed and `rotate` is never invoked. -/
theorem rotate_login_password_missing_key_aborts {Context : Type}
    (rotateImpl : RotateImpl) (event : Event) (context : Context)
    (h : getItem event "SecretId" = none ∨
         getItem event "ClientRequestToken" = none ∨
         getItem event "Step" = none) :
    (∃ k, getItem event k = none ∧
       (rotate_login_password rotateImpl event context).2 =
         some (Err.keyError k)) ∧
    (rotate_login_password rotateImpl event context).1 =
      [Action.printEvent event] := by
  cases hA : getItem event "SecretId" with
  | none =>
      exact ⟨⟨"SecretId", hA, by simp [rotate_login_password, hA]⟩,
             by simp [rotate_login_password, hA]⟩
  | some arn =>
      cases hT : getItem event "ClientRequestToken" with
      | none =>
          exact ⟨⟨"ClientRequestToken", hT,
                  by simp [rotate_login_password, hA, hT]⟩,
                 by simp [rotate_login_password, hA, hT]⟩
      | some token =>
          cases hS : getItem event "Step" with
          | none =>
              exact ⟨⟨"Step", hS,
                      by simp [rotate_login_password, hA, hT, hS]⟩,
                     by simp [rotate_login_password, hA, hT, hS]⟩
          | some step =>
              rcases h with h | h | h <;>
                first
                | exact absurd hA (h ▸ fun hc => Option.noConfusion hc)
                | exact absurd hT (h ▸ fun hc => Option.noConfusion hc)
                | exact absurd hS (h ▸ fun hc => Option.noConfusion hc)

/-- C2 witness: the theorem applied to an event lacking `Step`. -/
theorem rotate_login_password_missing_key_aborts_witness :
    (∃ k, getItem [("SecretId", "arn:s"), ("ClientRequestToken", "tok")] k
        = none ∧
       (rotate_login_password (fun _ _ _ => Except.ok ())
         [("SecretId", "arn:s"), ("ClientRequestToken", "tok")] ()).2 =
         some (Err.keyError k)) ∧
    (rotate_login_password (fun _ _ _ => Except.ok ())
      [("SecretId", "arn:s"), ("ClientRequestToken", "tok")] ()).1 =
      [Action.printEvent [("SecretId", "arn:s"), ("ClientRequestToken", "tok")]] :=
  rotate_login_password_missing_key_aborts _ _ ()
    (Or.inr (Or.inr (by decide)))

/-- C3: for every event and context, `rotate_access_keys` performs no
observable action: empty trace (no print, no rotator construction, no
rotate invocation) and no exception. -/
theorem rotate_access_keys_inert {Context : Type} (event : Event)
    (context : Context) :
    rotate_access_keys event context = ([], none) :=
  rfl

/-- C4 evaluation: the empty event is missing all three required keys,
yet `rotate_access_keys` returns normally with no action and no error,
contradicting its own docstring (`Raises: ... KeyError: If the event
parameters do not contain the expected keys`). -/
theorem rotate_access_keys_missing_keys_no_failure :
    (∀ k, getItem ([] : Event) k = none) ∧
    rotate_access_keys ([] : Event) () = ([], none) :=
  ⟨fun _ => rfl, rfl⟩

/-- C5: for every event containing the three required keys, if the
external rotator's `rotate` raises error `e`, `rotate_login_password`
fails with exactly that error, unmodified. -/
theorem rotate_login_password_propagates_rotator_error {Context : Type}
    (rotateImpl : RotateImpl) (event : Event) (context : Context)
    (arn token step e : String)
    (hArn : getItem event "SecretId" = some arn)
    (hTok : getItem event "ClientRequestToken" = some token)
    (hStep : getItem event "Step" = some step)
    (hE : rotateImpl arn token step = Except.error e) :
    (rotate_login_password rotateImpl event context).2 =
      some (Err.rotatorError e) := by
  simp [rotate_login_password, hArn, hTok, hStep, hE]

/-- C5 witness: a delegate that always raises propagates its error. -/
theorem rotate_login_password_propagates_rotator_error_witness :
    (rotate_login_password (fun _ _ _ => Except.error "boom")
      [("SecretId", "arn:s"), ("ClientRequestToken", "tok"),
       ("Step", "setSecret")] ()).2 = some (Err.rotatorError "boom") :=
  rotate_login_password_propagates_rotator_error _ _ ()
    "arn:s" "tok" "setSecret" "boom"
    (by decide) (by decide) (by decide) rfl

/-- C8: `rotate_login_password` performs no validation of the `Step`
field: for every event containing the three required keys, whatever the
`Step` value — in the four-value enumeration or not — that exact value is
forwarded to the rotator constructor. -/
theorem rotate_login_password_step_not_validated {Context : Type}
    (rotateImpl : RotateImpl) (event : Event) (context : Context)
    (arn token step : String)
    (hArn : getItem event "SecretId" = some arn)
    (hTok : getItem event "ClientRequestToken" = some token)
    (hStep : getItem event "Step" = some step) :
    Action.constructRotator arn token step ∈
      (rotate_login_password rotateImpl event context).1 := by
  simp only [rotate_login_password, hArn, hTok, hStep]
  cases hR : rotateImpl arn token step <;> simp

/-- C8 witness: a `Step` value outside
createSecret/setSecret/testSecret/finishSecret is forwarded unchanged. -/
theorem rotate_login_password_step_not_validated_witness :
    "bogusStep" ∉ ["createSecret", "setSecret", "testSecret", "finishSecret"] ∧
    Action.constructRotator "arn:s" "tok" "bogusStep" ∈
      (rotate_login_password (fun _ _ _ => Except.ok ())
        [("SecretId", "arn:s"), ("ClientRequestToken", "tok"),
         ("Step", "bogusStep")] ()).1 :=
  ⟨by decide,
   rotate_login_password_step_not_validated _ _ ()
     "arn:s" "tok" "bogusStep" (by decide) (by decide) (by decide)⟩

/-- C9: the event keys are read in the fixed order `SecretId`, then
`ClientRequestToken`, then `Step`: the `KeyError` raised names the first
missing key in that order, so in particular an event missing both
`SecretId` and `Step` fails on `SecretId`. -/
theorem rotate_login_password_key_lookup_order {Context : Type}
    (rotateImpl : RotateImpl) (event : Event) (context : Context) :
    (getItem event "SecretId" = none →
       (rotate_login_password rotateImpl event context).2 =
         some (Err.keyError "SecretId")) ∧
    (∀ arn, getItem event "SecretId" = some arn →
       getItem event "ClientRequestToken" = none →
       (rotate_login_password rotateImpl event context).2 =
         some (Err.keyError "ClientRequestToken")) ∧
    (∀ arn token, getItem event "SecretId" = some arn →
       getItem event "ClientRequestToken" = some token →
       getItem event "Step" = none →
       (rotate_login_password rotateImpl event context).2 =
         some (Err.keyError "Step")) := by
  refine ⟨fun hA => ?_, fun arn hA hT => ?_, fun arn token hA hT hS => ?_⟩
  · simp [rotate_login_password, hA]
  · simp [rotate_login_password, hA, hT]
  · simp [rotate_login_password, hA, hT, hS]

/-- C9 witness: an event carrying only `ClientRequestToken` — so missing
both `SecretId` and `Step` — fails with `KeyError` on `SecretId`. -/
theorem rotate_login_password_key_lookup_order_witness :
    (rotate_login_password (fun _ _ _ => Except.ok ())
      [("ClientRequestToken", "tok")] ()).2 =
      some (Err.keyError "SecretId") :=
  (rotate_login_password_key_lookup_order (fun _ _ _ => Except.ok ())
    [("ClientRequestToken", "tok")] ()).1 (by decide)

end Npm

namespace CdkIos

/-- C6: for every deployment scope, identifier, account and ARN
assignment, each `CommonStack` constructor provisions exactly one IAM
role, that role is assumable by `AccountPrincipal(self.account)`, and the
role's ARN is exposed: by the ios-sdk variant as a `CfnOutput` stack
output, and by the ios/sdk variant as a named `string_parameter` entry. -/
theorem commonStack_provisions_one_assumable_role (arnOf : ArnAssign)
    (scope : String) (id : String) (account : String) :
    (((IosSdk.CommonStack.init arnOf scope id account).2.countP
        Resource.isRole) = 1 ∧
     ∃ r, Resource.iamRole r ∈ (IosSdk.CommonStack.init arnOf scope id account).2 ∧
       r.assumed_by = Principal.accountPrincipal account ∧
       Resource.cfnOutput "circleciexecutionrolearn" r.role_arn ∈
         (IosSdk.CommonStack.init arnOf scope id account).2) ∧
    (((IosSdkInteg.CommonStack.init arnOf scope id account).2.countP
        Resource.isRole) = 1 ∧
     ∃ r, Resource.iamRole r ∈ (IosSdkInteg.CommonStack.init arnOf scope id account).2 ∧
       r.assumed_by = Principal.accountPrincipal account ∧
       Resource.stringParameter "circleci_execution_role" r.role_arn ∈
         (IosSdkInteg.CommonStack.init arnOf scope id account).2) := by
  refine ⟨⟨?_, ⟨mkRole arnOf account "circleci_execution_role", ?_, rfl, ?_⟩⟩,
          ⟨?_, ⟨mkRole arnOf account "circleci_execution_role", ?_, rfl, ?_⟩⟩⟩ <;>
    simp [IosSdk.CommonStack.init, IosSdkInteg.CommonStack.init, mkRole,
          Resource.isRole, List.countP_cons]

/-- C7: the two `CommonStack` definitions are duplicates with respect to
role creation: for the same scope, identifier, account and ARN
assignment, both create the same execution role (construct id
`circleci_execution_role`, assumable by the account principal), and their
provisioned resources differ only in how the ARN is emitted: a
`CfnOutput` named `circleciexecutionrolearn` versus a `string_parameter`
entry named `circleci_execution_role`. -/
theorem commonStack_variants_are_duplicates (arnOf : ArnAssign)
    (scope : String) (id : String) (account : String) :
    (IosSdk.CommonStack.init arnOf scope id account).1.circleci_execution_role =
      (IosSdkInteg.CommonStack.init arnOf scope id account).1.circleci_execution_role ∧
    (IosSdk.CommonStack.init arnOf scope id account).1.circleci_execution_role.construct_id =
      "circleci_execution_role" ∧
    (IosSdk.CommonStack.init arnOf scope id account).1.circleci_execution_role.assumed_by =
      Principal.accountPrincipal account ∧
    (IosSdk.CommonStack.init arnOf scope id account).2 =
      [Resource.iamRole (mkRole arnOf account "circleci_execution_role"),
       Resource.cfnOutput "circleciexecutionrolearn"
         (arnOf account "circleci_execution_role")] ∧
    (IosSdkInteg.CommonStack.init arnOf scope id account).2 =
      [Resource.iamRole (mkRole arnOf account "circleci_execution_role"),
       Resource.stringParameter "circleci_execution_role"
         (arnOf account "circleci_execution_role")] :=
  ⟨rfl, rfl, rfl, rfl, rfl⟩

/-- C10: in both `CommonStack` variants the `circleci_execution_role`
property is a plain stored-field accessor: immediately after construction
the getter returns exactly the role created in `__init__` — the role that
was provisioned and whose ARN was published — and for every value `v`,
setting the property to `v` and then reading it returns `v`, with no other
stack attribute modified by the setter. -/
theorem commonStack_role_property_accessor (arnOf : ArnAssign)
    (scope : String) (id : String) (account : String) (v : Role) :
    ((IosSdk.CommonStack.init arnOf scope id account).1.circleci_execution_role =
       mkRole arnOf account "circleci_execution_role" ∧
     Resource.iamRole
         (IosSdk.CommonStack.init arnOf scope id account).1.circleci_execution_role ∈
       (IosSdk.CommonStack.init arnOf scope id account).2 ∧
     Resource.cfnOutput "circleciexecutionrolearn"
         (IosSdk.CommonStack.init arnOf scope id account).1.circleci_execution_role.role_arn ∈
       (IosSdk.CommonStack.init arnOf scope id account).2 ∧
     ∀ s : IosSdk.CommonStack,
       (s.set_circleci_execution_role v).circleci_execution_role = v ∧
       (s.set_circleci_execution_role v).account = s.account) ∧
    ((IosSdkInteg.CommonStack.init arnOf scope id account).1.circleci_execution_role =
       mkRole arnOf account "circleci_execution_role" ∧
     Resource.iamRole
         (IosSdkInteg.CommonStack.init arnOf scope id account).1.circleci_execution_role ∈
       (IosSdkInteg.CommonStack.init arnOf scope id account).2 ∧
     Resource.stringParameter "circleci_execution_role"
         (IosSdkInteg.CommonStack.init arnOf scope id account).1.circleci_execution_role.role_arn ∈
       (IosSdkInteg.CommonStack.init arnOf scope id account).2 ∧
     ∀ s : IosSdkInteg.CommonStack,
       (s.set_circleci_execution_role v).circleci_execution_role = v ∧
       (s.set_circleci_execution_role v).account = s.account ∧
       (s.set_circleci_execution_role v).stackId = s.stackId) :=
  ⟨⟨rfl, List.mem_cons_self _ _,
    List.mem_cons_of_mem _ (List.mem_cons_self _ _),
    fun _ => ⟨rfl, rfl⟩⟩,
   ⟨rfl, List.mem_cons_self _ _,
    List.mem_cons_of_mem _ (List.mem_cons_self _ _),
    fun _ => ⟨rfl, rfl, rfl⟩⟩⟩

end CdkIos
